import Mathlib

/-!
Verification of the Langgraph-study repository's own logic against its
specification.

The repository is glue code around the external langgraph framework.  The
functions that the repository itself defines (environment helpers, the
weather stub, the custom tool node, base64 image encoding, and the node
bodies of the human-in-the-loop demos) are embedded below directly from the
Python source.  The interrupt/resume runtime itself is not part of the
repository (only its callers are), so that runtime is modelled from the
specification's description of the Resume Controller, the Interrupt Signal
and the positional-index matching of resume values to interrupt call sites.
-/

/- ===================== src/common/utils.py ===================== -/

/-- A process environment: a total map from variable names to an optional
string value (`none` = variable unset), mirroring `os.environ.get`. -/
def Env : Type := String → Option String

/-- Python truthiness of `os.environ.get(key)`: `None` and the empty string
are falsy, every other string is truthy. -/
def envTruthy (v : Option String) : Bool :=
  match v with
  | none => false
  | some s => !(s == "")

/-- Point update of an environment, mirroring `os.environ[k] = v`. -/
def setEnv (env : Env) (k v : String) : Env :=
  fun k2 => if k2 = k then some v else env k2

/-- Embedding of `set_env_if_undefined(env_key, env_val=None)` from
`src/common/utils.py`:

    def set_env_if_undefined(env_key: str, env_val=None):
        if not os.environ.get(env_key):
            print(...)
            os.environ[env_key] = env_val

The mutation of `os.environ` is made explicit: the function takes the
environment and returns the new one.  Assigning `None` into `os.environ`
raises `TypeError`, modelled as `.error ()`. -/
def set_env_if_undefined (env : Env) (env_key : String) (env_val : Option String) :
    Except Unit Env :=
  if envTruthy (env env_key) then .ok env
  else
    match env_val with
    | none => .error ()
    | some v => .ok (setEnv env env_key v)

/- ===================== src/get_start/langgraph_agents_tutorial.py ===================== -/

/-- Embedding of `get_weather(city)`:

    def get_weather(city: str) -> str:
        return f"It's always sunny in {city}!"
-/
def get_weather (city : String) : String :=
  "It's always sunny in " ++ city ++ "!"

/- ===================== src/get_start/build_a_custom_workflow.py ===================== -/

/-- A tool call as found on an AI message: `{"name": ..., "args": ..., "id": ...}`.
Tool arguments are kept abstract in the type parameter `A`. -/
structure ToolCall (A : Type) where
  name : String
  args : A
  id : String
  deriving DecidableEq, Repr

/-- A message carrying tool calls (the repository only reads `.tool_calls`
of the last message). -/
structure AIMsg (A : Type) where
  tool_calls : List (ToolCall A)
  deriving DecidableEq, Repr

/-- The `ToolMessage(content=..., name=..., tool_call_id=...)` constructed by
`BasicToolNode.__call__`; `content` holds the JSON-serialized tool result. -/
structure ToolMessage where
  content : String
  name : String
  tool_call_id : String
  deriving DecidableEq, Repr

/-- Python exceptions raised by `BasicToolNode.__call__`: the explicit
`ValueError("No message found in input")` and the `KeyError` of the
`self.tools_by_name[...]` dictionary lookup on an unregistered name. -/
inductive ToolNodeErr where
  | valueError (msg : String)
  | keyError (key : String)
  deriving DecidableEq, Repr

/-- A registered tool: a name and an invocation function from arguments to a
result of abstract type `R`. -/
structure Tool (A R : Type) where
  name : String
  fn : A → R

/-- `self.tools_by_name = {tool.name: tool for tool in tools}` — a dict
comprehension: on duplicate names the last tool wins, hence the reversed
first-match lookup. -/
def tools_by_name (tools : List (Tool A R)) (n : String) : Option (A → R) :=
  (tools.reverse.find? (fun t => t.name == n)).map (fun t => t.fn)

/-- The `for tool_call in message.tool_calls` loop of
`BasicToolNode.__call__`: appends one `ToolMessage` per tool call in order
and raises `KeyError` at the first tool call whose name is not registered
in `tools_by_name`. -/
def toolLoop (tools : List (Tool A R)) (dumps : R → String) :
    List (ToolCall A) → Except ToolNodeErr (List ToolMessage)
  | [] => .ok []
  | tool_call :: rest =>
    match tools_by_name tools tool_call.name with
    | none => .error (.keyError tool_call.name)
    | some fn =>
      match toolLoop tools dumps rest with
      | .error e => .error e
      | .ok outs =>
        .ok ({ content := dumps (fn tool_call.args)
               name := tool_call.name
               tool_call_id := tool_call.id } :: outs)

/-- Embedding of `BasicToolNode.__call__(inputs)` from
`src/get_start/build_a_custom_workflow.py` (lines 56-73).  The input dict's
`"messages"` entry is passed directly as the list (a missing key defaults to
`[]` in the source, and a falsy — empty — list raises the `ValueError`).
`json.dumps` of a tool result is kept abstract as `dumps : R → String`. -/
def BasicToolNode_call (tools : List (Tool A R)) (dumps : R → String)
    (messages : List (AIMsg A)) : Except ToolNodeErr (List ToolMessage) :=
  match messages.getLast? with
  | none => .error (.valueError "No message found in input")
  | some message => toolLoop tools dumps message.tool_calls

/- ===================== Interrupt/resume runtime ===================== -/

/-- Modelled from the spec: the outcome of running one node of a workflow
graph in the Resume Controller.  A node either raises an Interrupt Signal
(pausing with a pending payload) or completes with an updated state; the
list records the external effects (API calls) the node performed before
finishing, in order.  The runtime itself (langgraph) is not part of the
repository; only its callers are. -/
structure NodeRun (σ π ε : Type) where
  effects : List ε
  result : Except π σ
  deriving Repr

/-- Modelled from the spec: a node body receives the state and the session's
accumulated list of resume values; resume values are matched to interrupt
call sites by positional index within one node execution (spec §9
"positional-index matching of resume values to interrupt call sites"). -/
def NodeBody (σ π ε ρ : Type) : Type :=
  σ → List ρ → NodeRun σ π ε

/-- Modelled from the spec: one `interrupt(payload)` call site.  The call at
positional index `idx` returns the `idx`-th supplied resume value when the
session has one, substituted for the interrupt call's result; otherwise it
pauses the node with `payload` as the pending interrupt payload. -/
def interruptCall (resumes : List ρ) (idx : Nat) (payload : π) : Except π ρ :=
  match resumes[idx]? with
  | some v => .ok v
  | none => .error payload

/-- Modelled from the spec: the Resume Controller running a linear chain of
nodes from a state.  Each node runs to completion (or to an interrupt)
before the next begins; a pause stops the chain with the pending payload;
effects of completed prefixes accumulate in order.  `invoke(initialState)`
is the run with an empty resume list, and each `resume(value)` re-enters
from the checkpoint by replaying with the value appended to the session's
resume list (deterministic replay).  In every demo modelled below only the
first node contains interrupt call sites. -/
def runNodes (nodes : List (NodeBody σ π ε ρ)) (s : σ) (resumes : List ρ) :
    NodeRun σ π ε :=
  match nodes with
  | [] => ⟨[], .ok s⟩
  | n :: rest =>
    let r := n s resumes
    match r.result with
    | .error p => ⟨r.effects, .error p⟩
    | .ok s2 =>
      let r2 := runNodes rest s2 resumes
      ⟨r.effects ++ r2.effects, r2.result⟩

/- ========== demo_interrupt_minimal (human_in_the_loop_examples.py 59-98) ========== -/

namespace DemoInterruptMinimal

/-- `class State(TypedDict): some_text: str` -/
structure MinState where
  some_text : String
  deriving DecidableEq, Repr

/-- The dict `{"text_to_revise": state["some_text"]}` passed to `interrupt`. -/
structure MinPayload where
  text_to_revise : String
  deriving DecidableEq, Repr

/-- Embedding of the node body of `demo_interrupt_minimal`:

    def human_node(state: State):
        value = interrupt({"text_to_revise": state["some_text"]})
        return {"some_text": value}
-/
def human_node : NodeBody MinState MinPayload Unit String :=
  fun state resumes =>
    match interruptCall resumes 0 { text_to_revise := state.some_text } with
    | .error p => ⟨[], .error p⟩
    | .ok value => ⟨[], .ok { some_text := value }⟩

/-- The compiled single-node graph of `demo_interrupt_minimal`, run on one
thread with the accumulated resume values: `run t []` is the first
`invoke({"some_text": t})`, `run t [v]` the `invoke(Command(resume=v))`. -/
def run (t : String) (resumes : List String) : NodeRun MinState MinPayload Unit :=
  runNodes [human_node] { some_text := t } resumes

end DemoInterruptMinimal

/- ========== demo_side_effects_after_interrupt (676-710) and
              demo_side_effects_separate_node (712-748) ========== -/

namespace DemoSideEffects

/-- `class State(TypedDict): answer: str`; `invoke({})` starts with the key
unset, and no node reads it before writing it, so the initial value is
immaterial and modelled as `""`. -/
structure AnsState where
  answer : String
  deriving DecidableEq, Repr

/-- The observable external effect: `api_call(ans)` (lines 688-690), recorded
with its argument. -/
inductive Effect where
  | apiCall (ans : String)
  deriving DecidableEq, Repr

/-- Embedding of the node body of `demo_side_effects_after_interrupt`:

    def human_node(state: State):
        answer = interrupt("what is your name?")
        api_call(str(answer))  # after the interrupt
        return {"answer": str(answer)}
-/
def human_node_after : NodeBody AnsState String Effect String :=
  fun _ resumes =>
    match interruptCall resumes 0 "what is your name?" with
    | .error p => ⟨[], .error p⟩
    | .ok answer => ⟨[.apiCall answer], .ok { answer := answer }⟩

/-- Embedding of the node body of `demo_side_effects_separate_node`:

    def human_node(state: State):
        answer = interrupt("what is your name?")
        return {"answer": str(answer)}
-/
def human_node_sep : NodeBody AnsState String Effect String :=
  fun _ resumes =>
    match interruptCall resumes 0 "what is your name?" with
    | .error p => ⟨[], .error p⟩
    | .ok answer => ⟨[], .ok { answer := answer }⟩

/-- Embedding of the downstream effect node of `demo_side_effects_separate_node`:

    def api_call_node(state: State):
        print(f"[API 调用] 使用参数: {state['answer']}")
        return state
-/
def api_call_node : NodeBody AnsState String Effect String :=
  fun state _ => ⟨[.apiCall state.answer], .ok state⟩

/-- The graph of `demo_side_effects_after_interrupt`: START → human_node. -/
def runAfter (resumes : List String) : NodeRun AnsState String Effect :=
  runNodes [human_node_after] { answer := "" } resumes

/-- The graph of `demo_side_effects_separate_node`:
START → human_node → api_call_node → END. -/
def runSep (resumes : List String) : NodeRun AnsState String Effect :=
  runNodes [human_node_sep, api_call_node] { answer := "" } resumes

end DemoSideEffects

/- ========== demo_multiple_interrupts_in_one_node_caution (816-857) ========== -/

namespace DemoMultipleInterrupts

/-- `class State(TypedDict): age: Optional[str]; name: Optional[str]` -/
structure MultiState where
  name : Option String
  age : Option String
  deriving DecidableEq, Repr

/-- Python truthiness of `state.get(key)` for an optional string field:
`None` and `""` are falsy. -/
def falsyField (v : Option String) : Bool :=
  match v with
  | none => true
  | some s => s == ""

/-- Embedding of the node body of `demo_multiple_interrupts_in_one_node_caution`:

    def human_node(state: State):
        if not state.get('name'):
            name = interrupt("what is your name?")
        else:
            name = "N/A"
        if not state.get('age'):
            age = interrupt("what is your age?")
        else:
            age = "N/A"
        return {"age": age, "name": name}

The positional index of the age interrupt call site depends on whether the
name branch executed its interrupt call: resume values are matched to call
sites by call order, not by identity. -/
def human_node : NodeBody MultiState String Unit String :=
  fun state resumes =>
    let nameStep : Except String (String × Nat) :=
      if falsyField state.name then
        match interruptCall resumes 0 "what is your name?" with
        | .error p => .error p
        | .ok v => .ok (v, 1)
      else .ok ("N/A", 0)
    match nameStep with
    | .error p => ⟨[], .error p⟩
    | .ok (name, idx) =>
      match (if falsyField state.age then interruptCall resumes idx "what is your age?"
             else .ok "N/A" : Except String String) with
      | .error p => ⟨[], .error p⟩
      | .ok age => ⟨[], .ok { name := some name, age := some age }⟩

/-- The single-node graph of the demo run from a checkpointed state with the
session's accumulated resume values. -/
def run (s : MultiState) (resumes : List String) : NodeRun MultiState String Unit :=
  runNodes [human_node] s resumes

/-- `Command(resume=..., update={"name": u})`: the state update applied to
the checkpointed state before the paused node is re-entered. -/
def applyNameUpdate (s : MultiState) (u : String) : MultiState :=
  { s with name := some u }

end DemoMultipleInterrupts

/- ========== demo_validate_input_extended (529-578) ========== -/

/-- The code points CPython's `int` strips as surrounding whitespace
(`Py_UNICODE_ISSPACE` without the separator control characters
U+001C–U+001F, on which `int` raises): ASCII whitespace, NEL, NBSP, the
Ogham space mark, the general-punctuation spaces U+2000–U+200A, the
line and paragraph separators, narrow no-break space, medium mathematical
space and ideographic space. -/
def pyWsCodes : List Nat :=
  [0x9, 0xA, 0xB, 0xC, 0xD, 0x20, 0x85, 0xA0, 0x1680,
   0x2000, 0x2001, 0x2002, 0x2003, 0x2004, 0x2005, 0x2006, 0x2007,
   0x2008, 0x2009, 0x200A, 0x2028, 0x2029, 0x202F, 0x205F, 0x3000]

/-- Python-whitespace test for `int` parsing. -/
def isPyWs (c : Char) : Bool :=
  pyWsCodes.contains c.toNat

/-- First code points of the runs of ten consecutive Unicode decimal
digits (category Nd) in the Unicode database CPython ships: every decimal
digit of any script is `z + d` for exactly one start `z` listed here and
one value `d < 10`, and `int` accepts all of them. -/
def pyDigitZeroCodes : List Nat :=
  [0x30, 0x660, 0x6F0, 0x7C0, 0x966, 0x9E6, 0xA66, 0xAE6, 0xB66, 0xBE6,
   0xC66, 0xCE6, 0xD66, 0xDE6, 0xE50, 0xED0, 0xF20, 0x1040, 0x1090, 0x17E0,
   0x1810, 0x1946, 0x19D0, 0x1A80, 0x1A90, 0x1B50, 0x1BB0, 0x1C40, 0x1C50,
   0xA620, 0xA8D0, 0xA900, 0xA9D0, 0xA9F0, 0xAA50, 0xABF0, 0xFF10,
   0x104A0, 0x10D30, 0x11066, 0x110F0, 0x11136, 0x111D0, 0x112F0, 0x11450,
   0x114D0, 0x11650, 0x116C0, 0x11730, 0x118E0, 0x11950, 0x11C50, 0x11D50,
   0x11DA0, 0x16A60, 0x16AC0, 0x16B50, 0x1D7CE, 0x1D7D8, 0x1D7E2, 0x1D7EC,
   0x1D7F6, 0x1E140, 0x1E2F0, 0x1E950, 0x1FBF0]

/-- The decimal value of a Unicode decimal digit of any script, `none`
for every other character. -/
def pyDigitVal (c : Char) : Option Nat :=
  (pyDigitZeroCodes.find? (fun z => z ≤ c.toNat && c.toNat < z + 10)).map
    (fun z => c.toNat - z)

/-- The digit run of `int` after its first digit, with PEP 515 underscore
separators: an underscore must sit between two digits (no leading,
trailing or doubled underscore); `acc` carries the value parsed so far. -/
def pyDigitsCore (acc : Nat) : List Char → Option Nat
  | [] => some acc
  | ['_'] => none
  | '_' :: c :: rest =>
    match pyDigitVal c with
    | some d => pyDigitsCore (acc * 10 + d) rest
    | none => none
  | c :: rest =>
    match pyDigitVal c with
    | some d => pyDigitsCore (acc * 10 + d) rest
    | none => none

/-- A nonempty digit-and-underscore run parsed to its value: the first
character must be a decimal digit, then `pyDigitsCore` takes over. -/
def parseDigits : List Char → Option Nat
  | [] => none
  | c :: rest =>
    match pyDigitVal c with
    | some d => pyDigitsCore d rest
    | none => none

/-- Surrounding Python whitespace stripped from a character list. -/
def stripWs (l : List Char) : List Char :=
  ((l.dropWhile isPyWs).reverse.dropWhile isPyWs).reverse

/-- Model of Python's `int(str(u))` on a string `u`, validated against
CPython: optional surrounding whitespace per `pyWsCodes`, one optional
ASCII sign, then a nonempty run of Unicode decimal digits of any script
with single underscores allowed between digits (PEP 515); anything else
raises `ValueError`, modelled as `none`. -/
def pyParseInt (s : String) : Option Int :=
  match stripWs s.toList with
  | '+' :: rest => (parseDigits rest).map (fun n => (n : Int))
  | '-' :: rest => (parseDigits rest).map (fun n => -(n : Int))
  | rest => (parseDigits rest).map (fun n => (n : Int))

namespace DemoValidateInput

/-- `class State(TypedDict): age: int`; `invoke({})` starts with the key
unset, modelled as `none`. -/
structure AgeState where
  age : Option Int
  deriving DecidableEq, Repr

/-- The prompt of the first interrupt call of `get_valid_age`. -/
def initialPrompt : String :=
  "Please enter your age (must be a non-negative integer)."

/-- The re-prompt built after an invalid input:
`f"'{user_input}' is not valid. Please enter a non-negative integer for age."` -/
def invalidPrompt (user_input : String) : String :=
  "'" ++ user_input ++ "' is not valid. Please enter a non-negative integer for age."

/-- The `while True` loop of `get_valid_age`.  Each iteration performs one
interrupt call site; by positional-index matching the i-th iteration reads
the i-th accumulated resume value and pauses with the current prompt when
none is left, so the loop is recursion on the remaining resume values:

    while True:
        user_input = interrupt(prompt)
        try:
            age = int(str(user_input))
            if age < 0:
                raise ValueError("Age must be non-negative.")
            break
        except (ValueError, TypeError):
            prompt = f"'{user_input}' is not valid. ..."
-/
def get_valid_age_loop (remaining : List String) (prompt : String) : Except String Int :=
  match remaining with
  | [] => .error prompt
  | user_input :: rest =>
    match pyParseInt user_input with
    | some age =>
      if age < 0 then get_valid_age_loop rest (invalidPrompt user_input)
      else .ok age
    | none => get_valid_age_loop rest (invalidPrompt user_input)

/-- Embedding of the node body `get_valid_age` (lines 541-552); on success it
returns the update `{"age": age}`. -/
def get_valid_age : NodeBody AgeState String Unit String :=
  fun _ resumes =>
    match get_valid_age_loop resumes initialPrompt with
    | .error p => ⟨[], .error p⟩
    | .ok age => ⟨[], .ok { age := some age }⟩

/-- Embedding of `report_age` (lines 554-556): prints and returns the state
unchanged. -/
def report_age : NodeBody AgeState String Unit String :=
  fun state _ => ⟨[], .ok state⟩

/-- The graph of `demo_validate_input_extended`:
get_valid_age → report_age → END, run with the session's accumulated
resume values. -/
def run (resumes : List String) : NodeRun AgeState String Unit :=
  runNodes [get_valid_age, report_age] { age := none } resumes

end DemoValidateInput

/- ===================== src/multimodal/load_multimodal_model.py ===================== -/

/-- The standard base64 alphabet used by Python's `base64.b64encode`. -/
def b64charList : List Char :=
  ['A', 'B', 'C', 'D', 'E', 'F', 'G', 'H', 'I', 'J', 'K', 'L', 'M',
   'N', 'O', 'P', 'Q', 'R', 'S', 'T', 'U', 'V', 'W', 'X', 'Y', 'Z',
   'a', 'b', 'c', 'd', 'e', 'f', 'g', 'h', 'i', 'j', 'k', 'l', 'm',
   'n', 'o', 'p', 'q', 'r', 's', 't', 'u', 'v', 'w', 'x', 'y', 'z',
   '0', '1', '2', '3', '4', '5', '6', '7', '8', '9', '+', '/']

/-- The alphabet character of a 6-bit group. -/
def encChar (n : Nat) : Char :=
  b64charList.getD n '='

/-- The 6-bit group of an alphabet character (`none` for `'='` and for any
character outside the alphabet). -/
def decChar (c : Char) : Option Nat :=
  b64charList.findIdx? (fun c2 => c2 == c)

/-- RFC 4648 base64 encoding of a byte list (each element < 256), three
bytes to four characters with `'='` padding — the function computed by
Python's `base64.b64encode(...).decode('utf-8')`. -/
def encB64 : List Nat → List Char
  | [] => []
  | [b1] =>
    [encChar (b1 / 4), encChar (b1 % 4 * 16), '=', '=']
  | [b1, b2] =>
    [encChar (b1 / 4), encChar (b1 % 4 * 16 + b2 / 16), encChar (b2 % 16 * 4), '=']
  | b1 :: b2 :: b3 :: rest =>
    encChar (b1 / 4) :: encChar (b1 % 4 * 16 + b2 / 16) ::
      encChar (b2 % 16 * 4 + b3 / 64) :: encChar (b3 % 64) :: encB64 rest

/-- RFC 4648 base64 decoding, four characters to three bytes, honouring the
`'='` padding of a final partial group (the inverse direction of
`base64.b64decode`). -/
def decB64 : List Char → Option (List Nat)
  | [] => some []
  | c1 :: c2 :: c3 :: c4 :: rest =>
    match decChar c1, decChar c2 with
    | some s1, some s2 =>
      (match decChar c3 with
       | none =>
         if c3 = '=' ∧ c4 = '=' ∧ rest = [] then some [s1 * 4 + s2 / 16] else none
       | some s3 =>
         match decChar c4 with
         | none =>
           if c4 = '=' ∧ rest = [] then
             some [s1 * 4 + s2 / 16, s2 % 16 * 16 + s3 / 4]
           else none
         | some s4 =>
           (decB64 rest).map (fun tl =>
             (s1 * 4 + s2 / 16) :: (s2 % 16 * 16 + s3 / 4) :: (s3 % 4 * 64 + s4) :: tl))
    | _, _ => none
  | _ => none

/-- `base64.b64encode(image_data).decode('utf-8')` as a string. -/
def b64encode (bytes : List Nat) : String :=
  String.mk (encB64 bytes)

/-- Base64 decoding of a string back to bytes. -/
def b64decode (s : String) : Option (List Nat) :=
  decB64 s.toList

namespace MultimodalModelLoader

/-- The Python exceptions of `image_to_base64`: the `FileNotFoundError`
raised inside the `try` block and the plain `Exception` re-raised by the
`except` clause. -/
inductive PyExc where
  | fileNotFoundError (msg : String)
  | exception (msg : String)
  deriving DecidableEq, Repr

/-- `str(e)` of a modelled exception: its message. -/
def excMsg : PyExc → String
  | .fileNotFoundError m => m
  | .exception m => m

/-- A filesystem: a map from paths to the byte content of the file there
(`none` when `os.path.exists` is false). -/
def FS : Type := String → Option (List Nat)

/-- The `try` block of `image_to_base64` (lines 43-50): raise
`FileNotFoundError(f"图片文件不存在: {image_path}")` when the path does not
exist, else read the bytes and return their base64 encoding. -/
def image_to_base64_try (fs : FS) (image_path : String) : Except PyExc String :=
  match fs image_path with
  | none => .error (.fileNotFoundError ("图片文件不存在: " ++ image_path))
  | some image_data => .ok (b64encode image_data)

/-- Embedding of `MultimodalModelLoader.image_to_base64` (lines 29-53): the
`except Exception as e` clause catches every exception of the body —
including the `FileNotFoundError` the body itself raised — and re-raises
`Exception(f"转换图片为base64时出错: {e}")`. -/
def image_to_base64 (fs : FS) (image_path : String) : Except PyExc String :=
  match image_to_base64_try fs image_path with
  | .ok s => .ok s
  | .error e => .error (.exception ("转换图片为base64时出错: " ++ excMsg e))

end MultimodalModelLoader

/- ===================== Theorems ===================== -/

/-- C1: Pause/resume substitution contract for the single-interrupt-node
graph of `demo_interrupt_minimal`: the first `invoke({"some_text": t})`
pauses with pending interrupt payload `{"text_to_revise": t}`, and the
second invoke with `Command(resume=v)` on the same thread re-enters the
paused node with `v` substituted for the interrupt call's result and
completes with state `{"some_text": v}`. -/
theorem C1_interrupt_minimal_pause_resume (t v : String) :
    DemoInterruptMinimal.run t [] = ⟨[], .error { text_to_revise := t }⟩
    ∧ DemoInterruptMinimal.run t [v] = ⟨[], .ok { some_text := v }⟩ :=
  ⟨rfl, rfl⟩

/-- C2: No stale resume value: resuming the paused interrupt graph of
`demo_interrupt_minimal` with two distinct values `v1 ≠ v2` yields two
different resulting states — the paused node maps the resume value
injectively into the field `some_text`. -/
theorem C2_no_stale_resume (t v1 v2 : String) (hne : v1 ≠ v2) :
    (DemoInterruptMinimal.run t [v1]).result ≠ (DemoInterruptMinimal.run t [v2]).result := by
  intro h
  have h1 : (DemoInterruptMinimal.run t [v1]).result = .ok { some_text := v1 } := rfl
  have h2 : (DemoInterruptMinimal.run t [v2]).result = .ok { some_text := v2 } := rfl
  rw [h1, h2] at h
  simp only [Except.ok.injEq, DemoInterruptMinimal.MinState.mk.injEq] at h
  exact hne h

/-- Witness for C2 at a concrete input. -/
theorem C2_no_stale_resume_witness :
    (DemoInterruptMinimal.run "original text" ["Edited text"]).result ≠
      (DemoInterruptMinimal.run "original text" ["Other text"]).result :=
  C2_no_stale_resume "original text" "Edited text" "Other text" (by decide)

/-- C3: Side-effect placement: in both side-effect demos the `api_call`
effect is never executed during the invocation that pauses at the
interrupt (the paused run's effect list is empty), and across the full
pause-then-resume run of one session the effect executes exactly once,
after the interrupt point (`demo_side_effects_after_interrupt`) or in the
separate downstream node (`demo_side_effects_separate_node`). -/
theorem C3_side_effect_placement (v : String) :
    DemoSideEffects.runAfter [] = ⟨[], .error "what is your name?"⟩
    ∧ DemoSideEffects.runAfter [v] = ⟨[.apiCall v], .ok { answer := v }⟩
    ∧ DemoSideEffects.runSep [] = ⟨[], .error "what is your name?"⟩
    ∧ DemoSideEffects.runSep [v] = ⟨[.apiCall v], .ok { answer := v }⟩ :=
  ⟨rfl, rfl, rfl, rfl⟩

/-- C4: Positional matching of multiple interrupts in
`demo_multiple_interrupts_in_one_node_caution`: from the initial state
both fields are falsy and `invoke` pauses at the name interrupt.  Resuming
with `v` and no update delivers `v` to the name call site (the node then
pauses at the age interrupt, and a further resume `a` completes with
`name = v`, `age = a`).  Resuming with the same `v` after the state update
`{"name": "foo"}` flips the name branch, so the age interrupt becomes the
first call site and the very same resume value lands in the age field
instead. -/
theorem C4_positional_interrupt_matching (v a : String) :
    DemoMultipleInterrupts.run { name := none, age := none } [] =
      ⟨[], .error "what is your name?"⟩
    ∧ DemoMultipleInterrupts.run { name := none, age := none } [v] =
      ⟨[], .error "what is your age?"⟩
    ∧ DemoMultipleInterrupts.run { name := none, age := none } [v, a] =
      ⟨[], .ok { name := some v, age := some a }⟩
    ∧ DemoMultipleInterrupts.run
        (DemoMultipleInterrupts.applyNameUpdate { name := none, age := none } "foo") [v] =
      ⟨[], .ok { name := some "N/A", age := some v }⟩ :=
  ⟨rfl, rfl, rfl, rfl⟩

/-- C5: Frame property of the environment-variable check: when `env_key`
already maps to a non-empty string, `set_env_if_undefined` leaves the whole
environment unchanged (for any `env_val`); when `env_key` is unset or maps
to the falsy empty string and a string value is supplied, it sets exactly
that one key to `env_val` and changes no other entry. -/
theorem C5_set_env_frame (env : Env) (k : String) :
    (∀ (s : String) (val : Option String), env k = some s → s ≠ "" →
        set_env_if_undefined env k val = .ok env)
    ∧ ((env k = none ∨ env k = some "") → ∀ v : String,
        set_env_if_undefined env k (some v) = .ok (setEnv env k v)
        ∧ setEnv env k v k = some v
        ∧ (∀ k2, k2 ≠ k → setEnv env k v k2 = env k2)) := by
  constructor
  · intro s val hs hne
    simp [set_env_if_undefined, envTruthy, hs, hne]
  · intro h v
    have ht : envTruthy (env k) = false := by
      rcases h with h | h <;> simp [envTruthy, h]
    refine ⟨by simp [set_env_if_undefined, ht], by simp [setEnv], ?_⟩
    intro k2 hk2
    simp [setEnv, hk2]

/-- Witness for C5 at concrete environments: a defined non-empty key is left
alone; an undefined key is set and an unrelated key stays unset. -/
theorem C5_set_env_frame_witness :
    set_env_if_undefined (fun q => if q = "OPENAI_API_KEY" then some "sk-123" else none)
        "OPENAI_API_KEY" (some "other") =
      .ok (fun q => if q = "OPENAI_API_KEY" then some "sk-123" else none)
    ∧ set_env_if_undefined (fun _ => none) "TAVILY_API_KEY" (some "tv-1") =
      .ok (setEnv (fun _ => none) "TAVILY_API_KEY" "tv-1")
    ∧ setEnv (fun _ => none) "TAVILY_API_KEY" "tv-1" "TAVILY_API_KEY" = some "tv-1"
    ∧ setEnv (fun _ => none) "TAVILY_API_KEY" "tv-1" "PATH" = none := by
  refine ⟨?_, ?_, ?_, ?_⟩
  · exact (C5_set_env_frame _ "OPENAI_API_KEY").1 "sk-123" (some "other") (by simp) (by decide)
  · exact ((C5_set_env_frame (fun _ => none) "TAVILY_API_KEY").2 (Or.inl rfl) "tv-1").1
  · exact ((C5_set_env_frame (fun _ => none) "TAVILY_API_KEY").2 (Or.inl rfl) "tv-1").2.1
  · exact ((C5_set_env_frame (fun _ => none) "TAVILY_API_KEY").2 (Or.inl rfl) "tv-1").2.2
      "PATH" (by decide)

/-- C6: The weather-lookup stub: for every city, `get_weather city` is
exactly the string `"It's always sunny in " ++ city ++ "!"` — a total,
deterministic pure function of its argument alone (its Lean type has no
other input), not a real lookup. -/
theorem C6_get_weather_stub (city : String) :
    get_weather city = "It's always sunny in " ++ city ++ "!"
    ∧ (get_weather city).toList =
        "It's always sunny in ".toList ++ city.toList ++ ['!'] := by
  refine ⟨rfl, ?_⟩
  simp [get_weather, String.toList]

/-- C9: Calling `set_env_if_undefined(env_key)` with the default
`env_val=None` when the key is unset or maps to the empty string raises
`TypeError` (`os.environ` rejects a `None` value) and sets nothing; the
empty-string value is treated as undefined and is overwritten whenever a
string `env_val` is supplied. -/
theorem C9_set_env_none_type_error (env : Env) (k : String)
    (h : env k = none ∨ env k = some "") :
    set_env_if_undefined env k none = .error ()
    ∧ ∀ v : String, set_env_if_undefined env k (some v) = .ok (setEnv env k v) := by
  have ht : envTruthy (env k) = false := by
    rcases h with h | h <;> simp [envTruthy, h]
  exact ⟨by simp [set_env_if_undefined, ht], fun v => by simp [set_env_if_undefined, ht]⟩

/-- Witness for C9 at a concrete environment mapping the key to `""`. -/
theorem C9_set_env_none_type_error_witness :
    set_env_if_undefined (fun q => if q = "LANGSMITH_API_KEY" then some "" else none)
        "LANGSMITH_API_KEY" none = .error ()
    ∧ set_env_if_undefined (fun q => if q = "LANGSMITH_API_KEY" then some "" else none)
        "LANGSMITH_API_KEY" (some "ls-1") =
      .ok (setEnv (fun q => if q = "LANGSMITH_API_KEY" then some "" else none)
        "LANGSMITH_API_KEY" "ls-1") := by
  refine ⟨?_, ?_⟩
  · exact (C9_set_env_none_type_error _ "LANGSMITH_API_KEY" (Or.inr (by simp))).1
  · exact (C9_set_env_none_type_error _ "LANGSMITH_API_KEY" (Or.inr (by simp))).2 "ls-1"

/-- Decoding inverts encoding on every 6-bit group of the base64 alphabet. -/
theorem decChar_encChar : ∀ n < 64, decChar (encChar n) = some n := by decide

/-- The padding character is outside the base64 alphabet. -/
theorem decChar_pad_eq_none : decChar '=' = none := by decide

/-- Base64 roundtrip: decoding the encoding of any byte list recovers it. -/
theorem decB64_encB64 (bs : List Nat) (h : ∀ b ∈ bs, b < 256) :
    decB64 (encB64 bs) = some bs := by
  induction bs using encB64.induct with
  | case1 => rfl
  | case2 b1 =>
    have h1 : b1 < 256 := h b1 (by simp)
    have e1 := decChar_encChar (b1 / 4) (by omega)
    have e2 := decChar_encChar (b1 % 4 * 16) (by omega)
    simp only [encB64, decB64, e1, e2, decChar_pad_eq_none, if_true,
      Option.some.injEq, List.cons.injEq, and_true]
    omega
  | case3 b1 b2 =>
    have h1 : b1 < 256 := h b1 (by simp)
    have h2 : b2 < 256 := h b2 (by simp)
    have e1 := decChar_encChar (b1 / 4) (by omega)
    have e2 := decChar_encChar (b1 % 4 * 16 + b2 / 16) (by omega)
    have e3 := decChar_encChar (b2 % 16 * 4) (by omega)
    simp only [encB64, decB64, e1, e2, e3, decChar_pad_eq_none, if_true,
      Option.some.injEq, List.cons.injEq, and_true]
    constructor <;> omega
  | case4 b1 b2 b3 rest ih =>
    have h1 : b1 < 256 := h b1 (by simp)
    have h2 : b2 < 256 := h b2 (by simp)
    have h3 : b3 < 256 := h b3 (by simp)
    have hrest : ∀ b ∈ rest, b < 256 := fun b hb => h b (by simp [hb])
    have e1 := decChar_encChar (b1 / 4) (by omega)
    have e2 := decChar_encChar (b1 % 4 * 16 + b2 / 16) (by omega)
    have e3 := decChar_encChar (b2 % 16 * 4 + b3 / 64) (by omega)
    have e4 := decChar_encChar (b3 % 64) (by omega)
    simp only [encB64, decB64, e1, e2, e3, e4, ih hrest, Option.map,
      Option.some.injEq, List.cons.injEq]
    refine ⟨by omega, by omega, by omega, trivial⟩

/-- C8: `MultimodalModelLoader.image_to_base64` never raises
`FileNotFoundError` to its caller, contrary to its docstring: the enclosing
`except Exception` catches the `FileNotFoundError` it itself raised for a
missing path and re-raises a plain `Exception` whose message starts with
`"转换图片为base64时出错: "`; for an existing readable file it returns the
base64 encoding of the file's bytes, and decoding that string recovers the
file content. -/
theorem C8_image_to_base64_error_wrap (fs : MultimodalModelLoader.FS) (p : String) :
    (∀ m, MultimodalModelLoader.image_to_base64 fs p ≠
        .error (.fileNotFoundError m))
    ∧ (fs p = none →
        MultimodalModelLoader.image_to_base64 fs p =
          .error (.exception ("转换图片为base64时出错: " ++ ("图片文件不存在: " ++ p))))
    ∧ (∀ bs, fs p = some bs → (∀ b ∈ bs, b < 256) →
        MultimodalModelLoader.image_to_base64 fs p = .ok (b64encode bs)
        ∧ b64decode (b64encode bs) = some bs) := by
  refine ⟨?_, ?_, ?_⟩
  · intro m hm
    unfold MultimodalModelLoader.image_to_base64
      MultimodalModelLoader.image_to_base64_try at hm
    cases hf : fs p <;> rw [hf] at hm <;> simp at hm
  · intro hf
    simp [MultimodalModelLoader.image_to_base64,
      MultimodalModelLoader.image_to_base64_try, hf, MultimodalModelLoader.excMsg]
  · intro bs hf hb
    refine ⟨by simp [MultimodalModelLoader.image_to_base64,
      MultimodalModelLoader.image_to_base64_try, hf], ?_⟩
    exact decB64_encB64 bs hb

/-- Witness for C8 on a one-file filesystem: the missing path yields the
wrapped `Exception`, the existing file (bytes of `"Man"`) yields its base64
encoding, and decoding recovers the bytes. -/
theorem C8_image_to_base64_error_wrap_witness :
    MultimodalModelLoader.image_to_base64
        (fun q => if q = "img.png" then some [77, 97, 110] else none) "missing.png" =
      .error (.exception ("转换图片为base64时出错: " ++ ("图片文件不存在: " ++ "missing.png")))
    ∧ MultimodalModelLoader.image_to_base64
        (fun q => if q = "img.png" then some [77, 97, 110] else none) "img.png" =
      .ok (b64encode [77, 97, 110])
    ∧ b64decode (b64encode [77, 97, 110]) = some [77, 97, 110] := by
  have h3 := (C8_image_to_base64_error_wrap
    (fun q => if q = "img.png" then some [77, 97, 110] else none)
    "img.png").2.2 [77, 97, 110] (by decide) (by decide)
  exact ⟨(C8_image_to_base64_error_wrap _ "missing.png").2.1 (by decide), h3.1, h3.2⟩

/-- The tool loop never raises the `ValueError` — that error belongs only to
the empty-messages check. -/
theorem toolLoop_no_valueError {A R : Type} (tools : List (Tool A R)) (dumps : R → String)
    (l : List (ToolCall A)) (msg : String) :
    toolLoop tools dumps l ≠ .error (.valueError msg) := by
  induction l with
  | nil => simp [toolLoop]
  | cons tc rest ih =>
    simp only [toolLoop]
    cases htc : tools_by_name tools tc.name with
    | none => simp
    | some fn =>
      cases hr : toolLoop tools dumps rest with
      | error e =>
        intro hcontr
        simp only [hr] at hcontr
        simp only [Except.error.injEq] at hcontr
        rw [hcontr] at hr
        exact ih hr
      | ok outs => simp [hr]

/-- When every tool call resolves in `tools_by_name`, the loop returns one
`ToolMessage` per call, in order, carrying the call's name, its id and the
serialized result of invoking the resolved tool. -/
theorem toolLoop_all_registered {A R : Type} (tools : List (Tool A R)) (dumps : R → String)
    (f : ToolCall A → A → R) :
    ∀ (l : List (ToolCall A)),
      (∀ tc ∈ l, tools_by_name tools tc.name = some (f tc)) →
      toolLoop tools dumps l = .ok (l.map (fun tc =>
        { content := dumps (f tc tc.args), name := tc.name, tool_call_id := tc.id })) := by
  intro l
  induction l with
  | nil => intro _; rfl
  | cons tc rest ih =>
    intro hall
    have h1 : tools_by_name tools tc.name = some (f tc) := hall tc (by simp)
    have h2 := ih (fun tc2 htc2 => hall tc2 (by simp [htc2]))
    simp only [toolLoop, h1, h2, List.map_cons]

/-- The first tool call whose name is not registered makes the loop raise
`KeyError` with that name. -/
theorem toolLoop_first_unregistered {A R : Type} (tools : List (Tool A R))
    (dumps : R → String) :
    ∀ (pre : List (ToolCall A)) (tc : ToolCall A) (post : List (ToolCall A)),
      (∀ tc2 ∈ pre, (tools_by_name tools tc2.name).isSome) →
      tools_by_name tools tc.name = none →
      toolLoop tools dumps (pre ++ tc :: post) = .error (.keyError tc.name) := by
  intro pre
  induction pre with
  | nil =>
    intro tc post _ htc
    simp only [List.nil_append, toolLoop, htc]
  | cons tc2 rest ih =>
    intro tc post hall htc
    have h2 : (tools_by_name tools tc2.name).isSome := hall tc2 (by simp)
    rcases Option.isSome_iff_exists.mp h2 with ⟨fn, hfn⟩
    have hrec := ih tc post (fun x hx => hall x (by simp [hx])) htc
    simp only [List.cons_append, toolLoop, hfn, List.append_eq, hrec]

/-- C10 (amended): `BasicToolNode.__call__` raises `ValueError` iff its
input has no non-empty `"messages"` list; when the messages list is
non-empty and every tool call of the last message names a registered tool,
it returns exactly one `ToolMessage` per tool call of the last message, in
the order of the tool calls, each carrying that call's name, its id as
`tool_call_id` and the JSON-serialized tool result as content; a tool call
naming an unregistered tool instead raises `KeyError` from the
`tools_by_name` dictionary lookup. -/
theorem C10_tool_node_amended {A R : Type} (tools : List (Tool A R)) (dumps : R → String)
    (messages : List (AIMsg A)) :
    (BasicToolNode_call tools dumps messages =
        .error (.valueError "No message found in input") ↔ messages = [])
    ∧ (∀ m, messages.getLast? = some m →
        ∀ f : ToolCall A → A → R,
          (∀ tc ∈ m.tool_calls, tools_by_name tools tc.name = some (f tc)) →
          BasicToolNode_call tools dumps messages =
            .ok (m.tool_calls.map (fun tc =>
              { content := dumps (f tc tc.args)
                name := tc.name
                tool_call_id := tc.id })))
    ∧ (∀ m, messages.getLast? = some m →
        ∀ (pre : List (ToolCall A)) (tc : ToolCall A) (post : List (ToolCall A)),
          m.tool_calls = pre ++ tc :: post →
          (∀ tc2 ∈ pre, (tools_by_name tools tc2.name).isSome) →
          tools_by_name tools tc.name = none →
          BasicToolNode_call tools dumps messages = .error (.keyError tc.name)) := by
  refine ⟨⟨?_, ?_⟩, ?_, ?_⟩
  · intro hcall
    by_contra hne
    cases hm : messages.getLast? with
    | none => exact hne (List.getLast?_eq_none_iff.mp hm)
    | some m =>
      unfold BasicToolNode_call at hcall
      rw [hm] at hcall
      exact toolLoop_no_valueError tools dumps m.tool_calls _ hcall
  · intro hmsg
    subst hmsg
    rfl
  · intro m hm f hf
    unfold BasicToolNode_call
    rw [hm]
    exact toolLoop_all_registered tools dumps f m.tool_calls hf
  · intro m hm pre tc post hsplit hpre htc
    unfold BasicToolNode_call
    rw [hm]
    show toolLoop tools dumps m.tool_calls = .error (.keyError tc.name)
    rw [hsplit]
    exact toolLoop_first_unregistered tools dumps pre tc post hpre htc

/-- Counterexample to C10 as stated: an input with a non-empty messages
list whose single tool call names an unregistered tool makes
`BasicToolNode.__call__` raise `KeyError` — it does not return a
`ToolMessage` list (and the raised error is not the `ValueError`). -/
theorem C10_tool_node_counterexample :
    ([{ tool_calls := [{ name := "t", args := (), id := "id1" }] }] : List (AIMsg Unit)) ≠ []
    ∧ BasicToolNode_call ([] : List (Tool Unit Unit)) (fun _ => "null")
        [{ tool_calls := [{ name := "t", args := (), id := "id1" }] }] =
      .error (.keyError "t") :=
  ⟨by decide, rfl⟩

/-- Witness for the amended C10: the empty input raises the `ValueError`,
and a registered `get_weather` tool call yields its single `ToolMessage`. -/
theorem C10_tool_node_amended_witness :
    BasicToolNode_call ([] : List (Tool Unit Unit)) (fun _ => "null")
        ([] : List (AIMsg Unit)) = .error (.valueError "No message found in input")
    ∧ BasicToolNode_call [⟨"get_weather", fun _ => ()⟩] (fun _ => "\"sunny\"")
        [{ tool_calls := [{ name := "get_weather", args := (), id := "id1" }] }] =
      .ok [{ content := "\"sunny\"", name := "get_weather", tool_call_id := "id1" }] := by
  constructor
  · exact (C10_tool_node_amended ([] : List (Tool Unit Unit)) (fun _ => "null") []).1.mpr rfl
  · exact ((C10_tool_node_amended [⟨"get_weather", fun _ => ()⟩] (fun _ => "\"sunny\"")
      [{ tool_calls := [{ name := "get_weather", args := (), id := "id1" }] }]).2.1
      { tool_calls := [{ name := "get_weather", args := (), id := "id1" }] } rfl
      (fun _ => fun _ => ()) (by intro tc htc; simp at htc; subst htc; rfl))
